import Mathlib

/-!
Verification of the BookFlix Express backend (`src/server/routes.js`,
`src/server/server.js`) against its natural-language specification.

The request handlers are embedded shallowly: the relational database is a
record of lists of rows, each SQL query becomes a pure Lean function over
that state, and every handler becomes a function from its inputs (plus an
abstract query-failure flag standing for a connection/SQL error) to the
HTTP response it sends.  Numeric SQL values (ratings, averages, z-scores)
are modelled as rationals, which is exact for `AVG` over numeric columns.
-/

namespace BookFlix

/-! ### Database rows (tables referenced by the handlers) -/

/-- Row of the `login` table (`signup` inserts, `login` selects). -/
structure LoginRow where
  username : String
  password : String
  deriving Repr, DecidableEq

/-- Row of `books_data`. -/
structure Book where
  book_id : Int
  title : String
  description : String
  image_link : String
  publisher : String
  published_date : String
  deriving Repr, DecidableEq

/-- Row of `books_authors`. -/
structure BookAuthor where
  book_id : Int
  author_name : String
  deriving Repr, DecidableEq

/-- Row of `books_rating` (one individual review of a book). -/
structure BookRating where
  book_id : Int
  reviewer_profile_name : String
  review : String
  rating : ℚ
  total_votes : Int
  deriving Repr, DecidableEq

/-- Row of `movies_metadata`. -/
structure Movie where
  tconst : String
  primaryTitle : String
  originalTitle : String
  isAdult : Bool
  runtimeMinutes : Int
  deriving Repr, DecidableEq

/-- Row of `movies_ratings` (aggregate rating of one movie). -/
structure MovieRating where
  movie_id : String
  averageRating : ℚ
  numVotes : Int
  deriving Repr, DecidableEq

/-- Row of the adaptation mapping table `books_movies_map`. -/
structure BookMovieMap where
  book_id : Int
  tconst : String
  deriving Repr, DecidableEq

/-- Modelled from the spec: row of the helper views `BookStats` /
`MovieStats`, which are not shown in this repository.  The spec describes
them as holding the global mean rating and the global standard deviation
used by the z-score outlier query, so a row carries exactly those two
columns (`avg_rating`, `stddev_rating`); the views' contents are treated
as part of the database state. -/
structure StatsRow where
  avg_rating : ℚ
  stddev_rating : ℚ
  deriving Repr, DecidableEq

/-- The database state: one list of rows per table or view the handlers
touch.  `bookStats` / `movieStats` are the helper views (see `StatsRow`). -/
structure DB where
  login : List LoginRow
  books_data : List Book
  books_authors : List BookAuthor
  books_rating : List BookRating
  movies_metadata : List Movie
  movies_ratings : List MovieRating
  books_movies_map : List BookMovieMap
  bookStats : List StatsRow
  movieStats : List StatsRow
  deriving Repr, DecidableEq

/-- The empty database state. -/
def emptyDB : DB :=
  ⟨[], [], [], [], [], [], [], [], []⟩

/-! ### HTTP responses

Each handler replies with `res.status(s).json(body)` (or `res.json(body)`,
which defaults the status to 200).  A body is either a JSON array of rows,
an object with a single `message` field, an object with a single `error`
field, or a bare JSON string (`res.json('...')`). -/

/-- A JSON response body, parametrised by the handler's row type. -/
inductive Body (ρ : Type) where
  | rowsArr : List ρ → Body ρ
  | msgObj : String → Body ρ
  | errObj : String → Body ρ
  | strBody : String → Body ρ
  deriving Repr, DecidableEq

/-- Whether a body is a bare JSON string. -/
def Body.isStr {ρ : Type} : Body ρ → Bool
  | .strBody _ => true
  | _ => false

/-- An HTTP response: status code plus JSON body. -/
structure Response (ρ : Type) where
  status : Nat
  body : Body ρ
  deriving Repr, DecidableEq

/-- What a handler invocation produced: the response it sent, and whether
it reached `connection.query` (guards that return early do not). -/
structure HandlerOut (ρ : Type) where
  resp : Response ρ
  ranQuery : Bool
  deriving Repr, DecidableEq

/-- The rows of a response whose body is a JSON array (`[]` otherwise). -/
def HandlerOut.rows {ρ : Type} (h : HandlerOut ρ) : List ρ :=
  match h.resp.body with
  | .rowsArr l => l
  | _ => []

/-! ### JavaScript comparison helpers

Express hands query and path parameters to the handlers as strings.  When
JavaScript evaluates `a < b` on two strings it compares them
lexicographically by UTF-16 code unit; when it compares a string with a
number literal it first converts the string to a number, so for a numeric
id the comparison agrees with the integer comparison (non-numeric strings
convert to NaN and every comparison is false).  Handlers whose guards
compare an id with a number literal therefore take the id as an `Int`. -/

/-- Lexicographic strict order on character lists by code point. -/
def charListLt : List Char → List Char → Bool
  | [], [] => false
  | [], _ :: _ => true
  | _ :: _, [] => false
  | c :: cs, d :: ds =>
    if c.toNat < d.toNat then true
    else if d.toNat < c.toNat then false
    else charListLt cs ds

/-- JavaScript `a < b` on two strings: lexicographic by code unit. -/
def jsStrLt (a b : String) : Bool :=
  charListLt a.data b.data

/-- Decimal value of a digit string: the number JavaScript's `ToNumber`
gives a non-negative integer literal string. -/
def strNatVal (s : String) : Nat :=
  s.data.foldl (fun a c => 10 * a + (c.toNat - 48)) 0

/-! ### Shared SQL helpers -/

/-- Arithmetic mean of a list of rationals (`AVG`). -/
def listAvg (l : List ℚ) : ℚ :=
  l.sum / l.length

/-- LEFT JOIN of one base row against its list of matches: no match
yields a single row with NULL (`none`), otherwise one row per match. -/
def leftJoinOpt {β : Type} (hits : List β) : List (Option β) :=
  match hits with
  | [] => [none]
  | l => l.map some

/-- The ratings of the individual reviews of one book in `books_rating`. -/
def ratingsOf (db : DB) (bid : Int) : List ℚ :=
  (db.books_rating.filter (fun r => r.book_id == bid)).map (fun r => r.rating)

/-- The `AverageBookRating` CTE of the adaptation queries: `AVG(rating)`
of a book's reviews, grouped by `book_id`, so NULL (`none`) exactly when
the book has no review. -/
def avgBookRating (db : DB) (bid : Int) : Option ℚ :=
  if ratingsOf db bid = [] then none else some (listAvg (ratingsOf db bid))

/-! ### Handler: `login` (POST /login)

Selects `login` rows by username; 401 when none match, otherwise compares
the first row's stored password with the supplied one by plain string
equality; any query error yields a 500. -/

/-- The `login` handler of `routes.js`. -/
def login (username password : String) (db : DB) (qfail : Bool) :
    HandlerOut LoginRow :=
  if qfail then ⟨⟨500, .errObj "Database error"⟩, true⟩
  else
    match db.login.filter (fun r => r.username == username) with
    | [] => ⟨⟨401, .msgObj "Incorrect username/password! Try again."⟩, true⟩
    | r :: _ =>
      if password == r.password then
        ⟨⟨200, .msgObj "Login successful"⟩, true⟩
      else
        ⟨⟨401, .msgObj "Incorrect username/password! Try again."⟩, true⟩

/-! ### Handler: `signup` (POST /signup)

A single parameterized `INSERT INTO login (username, password)`.  The
spec records that duplicate usernames fail via a unique constraint; a
failed insert (constraint violation or connection error) leaves the
database unchanged and yields a 500. -/

/-- Whether a `login` row with this username already exists (the unique
constraint that makes a duplicate INSERT fail). -/
def usernameTaken (db : DB) (u : String) : Bool :=
  db.login.any (fun r => r.username == u)

/-- The `signup` handler: the response it sends, paired with the database
state after the request. -/
def signup (username pw : String) (db : DB) (qfail : Bool) :
    HandlerOut LoginRow × DB :=
  if qfail || usernameTaken db username then
    (⟨⟨500, .errObj "User already exists or database error!"⟩, true⟩, db)
  else
    (⟨⟨201, .msgObj "User created successfully"⟩, true⟩,
     { db with login := db.login ++ [⟨username, pw⟩] })

/-! ### Abstract query outcomes

For handlers none of whose claims concern the content of their SQL result
(the searches and the view-backed analytics), the database's answer is
taken as a parameter: either a failure or a list of rows of the handler's
result shape.  The handler body then mirrors the JavaScript callback
exactly. -/

/-- Outcome of `connection.query` for a handler whose row computation is
left abstract. -/
inductive QueryOutcome (ρ : Type) where
  | fail : QueryOutcome ρ
  | ok : List ρ → QueryOutcome ρ
  deriving Repr

/-- Whether an abstract query outcome is a failure. -/
def QueryOutcome.isFail {ρ : Type} : QueryOutcome ρ → Bool
  | .fail => true
  | .ok _ => false

/-- Result row of the `search_books` SELECT. -/
structure BookSearchRow where
  book_id : Int
  title : String
  author_name : String
  description : String
  image_link : String
  publisher : String
  year_published : String
  genre_name : String
  deriving Repr, DecidableEq

/-- Result row of the three movie-details/search SELECTs. -/
structure MovieDetailsRow where
  tconst : String
  primaryTitle : String
  originalTitle : String
  isAdult : Bool
  runtimeMinutes : Int
  genres : Option String
  averageRating : Option ℚ
  numVotes : Option Int
  deriving Repr, DecidableEq

/-- Result row of `book_analytics_top_authors`. -/
structure TopAuthorRow where
  author_name : String
  average_rating : ℚ
  deriving Repr, DecidableEq

/-- Result row of `topMoviesByGenre`. -/
structure TopMovieByGenreRow where
  genre : String
  primaryTitle : String
  averageRating : ℚ
  deriving Repr, DecidableEq

/-- Result row of `correlationReviewsMovieRatings`. -/
structure CorrelationRow where
  label : String
  record_count : Int
  deriving Repr, DecidableEq

/-- Result row of `PositiveReviewsforBooksvsLowMovierating`. -/
structure PositiveVsLowRow where
  movie_title : String
  positive_review_count : Int
  avg_movie_rating : ℚ
  deriving Repr, DecidableEq

/-! ### Handler: `search_books` (GET /books/search)

The year-range guard is `if (yearHigh < yearLow)` on the raw query
parameters, which are strings, so JavaScript compares them
lexicographically, not numerically. -/

/-- The `search_books` handler (row computation abstract). -/
def search_books (yearLow yearHigh : String)
    (q : QueryOutcome BookSearchRow) : HandlerOut BookSearchRow :=
  if jsStrLt yearHigh yearLow then
    ⟨⟨404, .errObj "Invalid year range"⟩, false⟩
  else
    match q with
    | .fail => ⟨⟨500, .errObj "Internal Server Error"⟩, true⟩
    | .ok rows => ⟨⟨200, .rowsArr rows⟩, true⟩

/-! ### Handlers: movie details and movie search -/

/-- The `moviesDetails` handler (row computation abstract). -/
def moviesDetails (q : QueryOutcome MovieDetailsRow) :
    HandlerOut MovieDetailsRow :=
  match q with
  | .fail => ⟨⟨500, .errObj "Internal Server Error"⟩, true⟩
  | .ok rows => ⟨⟨200, .rowsArr rows⟩, true⟩

/-- The `moviesDetailsWithId` handler.  Its empty-id guard has no
`return`, so the query still runs and a second response is attempted
(failing after headers are sent); the observable response is the first
one, modelled here. -/
def moviesDetailsWithId (tconst : String)
    (q : QueryOutcome MovieDetailsRow) : HandlerOut MovieDetailsRow :=
  if tconst.length == 0 then
    ⟨⟨404, .errObj "Internal Server Error"⟩, true⟩
  else
    match q with
    | .fail => ⟨⟨500, .errObj "Internal Server Error"⟩, true⟩
    | .ok rows => ⟨⟨200, .rowsArr rows⟩, true⟩

/-- The `searchMovies` handler (row computation abstract). -/
def searchMovies (q : QueryOutcome MovieDetailsRow) :
    HandlerOut MovieDetailsRow :=
  match q with
  | .fail => ⟨⟨500, .errObj "Internal Server Error"⟩, true⟩
  | .ok rows => ⟨⟨200, .rowsArr rows⟩, true⟩

/-! ### Handler: `get_book_details` (GET /book/details/:book_id)

The guard compares the path parameter with the number literal 0, so a
numeric id behaves as its integer value.  Inside the callback the source
checks `data.length === 0`, but `data` is the pg result object, which has
no `length` property: the check compares `undefined` with 0 and is always
false, so the 404 branch for an empty result set is dead code. -/

/-- The empty-result check of `get_book_details` / `get_book_reviews` as
the source wrote it: `data.length === 0` with `data` the pg result object
(no `length` field), i.e. `undefined === 0`, i.e. false. -/
def dataLengthIsZero : Bool := false

/-- Result row of the `get_book_details` SELECT. -/
structure BookDetailsRow where
  book_id : Int
  book_title : String
  book_description : String
  book_image_link : String
  book_publisher_name : String
  book_published_date : String
  authors : String
  deriving Repr, DecidableEq

/-- STRING_AGG of a book's author names, `', '`-joined in ascending
order (`ORDER BY ba.author_name`). -/
def sortedAuthors (db : DB) (bid : Int) : String :=
  String.intercalate ", "
    (((db.books_authors.filter (fun a => a.book_id == bid)).map
        (fun a => a.author_name)).mergeSort (fun a b => decide (a ≤ b)))

/-- Rows of the `get_book_details` SELECT: the books with the given id
that have at least one author row (INNER JOIN), grouped per book.
`book_id` is the key of `books_data`, so the filtered list has at most
one element in a well-formed state. -/
def bookDetailsRows (db : DB) (bid : Int) : List BookDetailsRow :=
  ((db.books_data.filter (fun b => b.book_id == bid)).filter
      (fun b => !(db.books_authors.filter
        (fun a => a.book_id == b.book_id)).isEmpty)).map
    (fun b => ⟨b.book_id, b.title, b.description, b.image_link,
               b.publisher, b.published_date, sortedAuthors db b.book_id⟩)

/-- The `get_book_details` handler. -/
def get_book_details (book_id : Int) (db : DB) (qfail : Bool) :
    HandlerOut BookDetailsRow :=
  if book_id < 0 then ⟨⟨404, .msgObj "No books found"⟩, false⟩
  else if qfail then ⟨⟨500, .errObj "Internal Server Error"⟩, true⟩
  else if dataLengthIsZero then ⟨⟨404, .msgObj "No books found"⟩, true⟩
  else ⟨⟨200, .rowsArr (bookDetailsRows db book_id)⟩, true⟩

/-! ### Handler: `get_book_reviews` (GET /books/reviews)

Both of its non-success `res.json(...)` calls pass a bare string.  The
`data.length === 0` check is the same dead comparison as in
`get_book_details`, and the inner `book_id < 0` check is dead because the
guard already returned. -/

/-- Result row of the `get_book_reviews` SELECT. -/
structure ReviewRow where
  book_title : String
  book_review : String
  book_rating : ℚ
  reviewer_profile_name : String
  book_review_votes : Int
  deriving Repr, DecidableEq

/-- Rows of the `get_book_reviews` SELECT: reviews of the given book with
rating in the requested range, joined with the book's title, ordered by
rating descending. -/
def reviewRows (db : DB) (bid : Int) (minr maxr : ℚ) : List ReviewRow :=
  ((db.books_rating.filter (fun r =>
      decide (minr ≤ r.rating) && decide (r.rating ≤ maxr))).flatMap
    (fun r =>
      (db.books_data.filter (fun b =>
          b.book_id == r.book_id && b.book_id == bid)).map
        (fun b => (⟨b.title, r.review, r.rating, r.reviewer_profile_name,
                    r.total_votes⟩ : ReviewRow)))).mergeSort
    (fun a b => decide (b.book_rating ≤ a.book_rating))

/-- The `get_book_reviews` handler. -/
def get_book_reviews (book_id : Int) (minr maxr : ℚ) (db : DB)
    (qfail : Bool) : HandlerOut ReviewRow :=
  if book_id < 0 then ⟨⟨404, .strBody "Internal Server Error"⟩, false⟩
  else if qfail then ⟨⟨500, .strBody "Internal Server Error"⟩, true⟩
  else if dataLengthIsZero then
    ⟨⟨404, .strBody "No reviews found for the specified book title"⟩, true⟩
  else if book_id < 0 then
    ⟨⟨404, .strBody "No reviews found for the specified book title"⟩, true⟩
  else ⟨⟨200, .rowsArr (reviewRows db book_id minr maxr)⟩, true⟩

/-! ### Handler: `book_analytics_top_authors` -/

/-- The `book_analytics_top_authors` handler (row computation
abstract). -/
def book_analytics_top_authors (q : QueryOutcome TopAuthorRow) :
    HandlerOut TopAuthorRow :=
  match q with
  | .fail => ⟨⟨500, .errObj "Internal Server Error"⟩, true⟩
  | .ok rows => ⟨⟨200, .rowsArr rows⟩, true⟩

/-! ### Handlers: adaptation lookups

`get_book_adaptations_for_movie` maps a movie `tconst` to the books
recorded for it in `books_movies_map`; `get_movie_adaptations_for_book`
maps a book id to its recorded movies.  Both compute the book's average
review rating through the `AverageBookRating` CTE (`AVG(rating)` grouped
by `book_id`, hence NULL for a book with no review), LEFT JOIN the
movie's aggregate rating, order by `m.runtimeminutes DESC` and keep one
row (`LIMIT 1`). -/

/-- Result row of `get_book_adaptations_for_movie`. -/
structure AdaptBookRow where
  book_id : Int
  book_title : String
  book_rating : Option ℚ
  movie_title : String
  avg_movie_rating : Option ℚ
  is_movie_adult : Bool
  deriving Repr, DecidableEq

/-- Result row of `get_movie_adaptations_for_book`. -/
structure AdaptMovieRow where
  book_title : String
  book_description : String
  book_image_link : String
  book_publisher_name : String
  book_published_date : String
  book_average_rating : Option ℚ
  movie_title : String
  avg_movie_rating : Option ℚ
  is_movie_adult : Bool
  movie_id : String
  deriving Repr, DecidableEq

/-- Candidate rows of the `get_book_adaptations_for_movie` SELECT before
`ORDER BY`/`LIMIT`, each paired with its movie's `runtimeminutes` (the
sort key).  One candidate per mapping of the requested movie to an
existing book, LEFT JOINed with the movie's rating rows. -/
def bookAdaptCandidates (db : DB) (tconst : String) :
    List (Int × AdaptBookRow) :=
  (db.movies_metadata.filter (fun m => m.tconst == tconst)).flatMap
    (fun m =>
      (db.books_movies_map.filter (fun bm => bm.tconst == m.tconst)).flatMap
        (fun bm =>
          (db.books_data.filter (fun b => b.book_id == bm.book_id)).flatMap
            (fun b =>
              (leftJoinOpt (db.movies_ratings.filter
                  (fun mr => mr.movie_id == m.tconst))).map
                (fun mr =>
                  (m.runtimeMinutes,
                   (⟨b.book_id, b.title, avgBookRating db b.book_id,
                     m.primaryTitle, mr.map (fun x => x.averageRating),
                     m.isAdult⟩ : AdaptBookRow))))))

/-- Rows returned by the `get_book_adaptations_for_movie` query:
candidates sorted by runtime descending, first row kept (`LIMIT 1`). -/
def bookAdaptRows (db : DB) (tconst : String) : List AdaptBookRow :=
  (((bookAdaptCandidates db tconst).mergeSort
      (fun a b => decide (b.1 ≤ a.1))).map (fun c => c.2)).take 1

/-- The `get_book_adaptations_for_movie` handler. -/
def get_book_adaptations_for_movie (tconst : String) (db : DB)
    (qfail : Bool) : HandlerOut AdaptBookRow :=
  if tconst.length == 0 then ⟨⟨500, .errObj "Internal Server Error"⟩, false⟩
  else if qfail then ⟨⟨500, .errObj "Internal Server Error"⟩, true⟩
  else ⟨⟨200, .rowsArr (bookAdaptRows db tconst)⟩, true⟩

/-- Candidate rows of the `get_movie_adaptations_for_book` SELECT before
`ORDER BY`/`LIMIT`, each paired with its movie's `runtimeminutes`.  The
`AverageBookRating` CTE there is additionally restricted to the queried
book id, which coincides with `avgBookRating` at `b.book_id` because the
WHERE clause pins `b.book_id` to that id. -/
def movieAdaptCandidates (db : DB) (book_id : Int) :
    List (Int × AdaptMovieRow) :=
  (db.books_data.filter (fun b => b.book_id == book_id)).flatMap
    (fun b =>
      (db.books_movies_map.filter (fun bm => bm.book_id == b.book_id)).flatMap
        (fun bm =>
          (db.movies_metadata.filter (fun m => m.tconst == bm.tconst)).flatMap
            (fun m =>
              (leftJoinOpt (db.movies_ratings.filter
                  (fun mr => mr.movie_id == m.tconst))).map
                (fun mr =>
                  (m.runtimeMinutes,
                   (⟨b.title, b.description, b.image_link, b.publisher,
                     b.published_date, avgBookRating db b.book_id,
                     m.primaryTitle, mr.map (fun x => x.averageRating),
                     m.isAdult, m.tconst⟩ : AdaptMovieRow))))))

/-- Rows returned by the `get_movie_adaptations_for_book` query. -/
def movieAdaptRows (db : DB) (book_id : Int) : List AdaptMovieRow :=
  (((movieAdaptCandidates db book_id).mergeSort
      (fun a b => decide (b.1 ≤ a.1))).map (fun c => c.2)).take 1

/-- The `get_movie_adaptations_for_book` handler.  Its guard is
`if (book_id < -1)`, so -1 itself is not rejected. -/
def get_movie_adaptations_for_book (book_id : Int) (db : DB)
    (qfail : Bool) : HandlerOut AdaptMovieRow :=
  if book_id < -1 then ⟨⟨500, .errObj "Internal Server Error"⟩, false⟩
  else if qfail then ⟨⟨500, .errObj "Internal Server Error"⟩, true⟩
  else ⟨⟨200, .rowsArr (movieAdaptRows db book_id)⟩, true⟩

/-! ### Handlers: remaining analytics endpoints -/

/-- The `topMoviesByGenre` handler (row computation abstract). -/
def topMoviesByGenre (q : QueryOutcome TopMovieByGenreRow) :
    HandlerOut TopMovieByGenreRow :=
  match q with
  | .fail => ⟨⟨500, .errObj "Internal Server Error"⟩, true⟩
  | .ok rows => ⟨⟨200, .rowsArr rows⟩, true⟩

/-- The `correlationReviewsMovieRatings` handler.  `invalid` mirrors the
truthiness of `req.query.invalid`. -/
def correlationReviewsMovieRatings (invalid : Bool)
    (q : QueryOutcome CorrelationRow) : HandlerOut CorrelationRow :=
  if invalid then ⟨⟨400, .errObj "Invalid IMDb ID"⟩, false⟩
  else
    match q with
    | .fail => ⟨⟨500, .errObj "Internal Server Error"⟩, true⟩
    | .ok rows => ⟨⟨200, .rowsArr rows⟩, true⟩

/-- The `PositiveReviewsforBooksvsLowMovierating` handler.  Its
query-failure response is a bare JSON string. -/
def PositiveReviewsforBooksvsLowMovierating (invalid : Bool)
    (q : QueryOutcome PositiveVsLowRow) : HandlerOut PositiveVsLowRow :=
  if invalid then ⟨⟨500, .errObj "Internal Server Error"⟩, false⟩
  else
    match q with
    | .fail => ⟨⟨500, .strBody "Internal Server Error"⟩, true⟩
    | .ok rows => ⟨⟨200, .rowsArr rows⟩, true⟩

/-! ### Handler: `BookAndMovieOutliers` (GET /analytics/BookAndMovieOutliers)

Per-title average ratings are CROSS JOINed against the `BookStats` /
`MovieStats` views, groups with `ABS((AVG - avg_rating)/stddev_rating) > 2`
are kept, the two outlier sets are UNION ALLed with a `media_type` label
of `'Book'` or `'Movie'`, and the union is ordered by `z_score`
descending.  A zero `stddev_rating` makes PostgreSQL raise division by
zero, turning the whole request into a 500. -/

/-- Result row of the outlier query. -/
structure OutlierRow where
  media_type : String
  media_title : String
  avg_rating : ℚ
  z_score : ℚ
  deriving Repr, DecidableEq

/-- The `books_rating ⋈ books_data` join projected to (title, rating). -/
def bookTitleRatings (db : DB) : List (String × ℚ) :=
  db.books_rating.flatMap (fun r =>
    (db.books_data.filter (fun b => b.book_id == r.book_id)).map
      (fun b => (b.title, r.rating)))

/-- The distinct titles the book grouping produces. -/
def bookTitles (db : DB) : List String :=
  ((bookTitleRatings db).map Prod.fst).dedup

/-- The `movies_ratings ⋈ movies_metadata` join projected to
(primarytitle, averagerating). -/
def movieTitleRatings (db : DB) : List (String × ℚ) :=
  db.movies_ratings.flatMap (fun r =>
    (db.movies_metadata.filter (fun m => m.tconst == r.movie_id)).map
      (fun m => (m.primaryTitle, r.averageRating)))

/-- The distinct titles the movie grouping produces. -/
def movieTitles (db : DB) : List String :=
  ((movieTitleRatings db).map Prod.fst).dedup

/-- Average of the ratings recorded for one title in a (title, rating)
join. -/
def titleAvg (prs : List (String × ℚ)) (t : String) : ℚ :=
  listAvg ((prs.filter (fun p => p.1 == t)).map Prod.snd)

/-- The `BookOutliers` CTE: one row per stats row and per title whose
z-score magnitude exceeds 2, labelled `'Book'`. -/
def bookOutlierRows (db : DB) : List OutlierRow :=
  db.bookStats.flatMap (fun s =>
    (bookTitles db).filterMap (fun t =>
      let a := titleAvg (bookTitleRatings db) t
      let z := (a - s.avg_rating) / s.stddev_rating
      if |z| > 2 then some ⟨"Book", t, a, z⟩ else none))

/-- The `MovieOutliers` CTE, labelled `'Movie'`. -/
def movieOutlierRows (db : DB) : List OutlierRow :=
  db.movieStats.flatMap (fun s =>
    (movieTitles db).filterMap (fun t =>
      let a := titleAvg (movieTitleRatings db) t
      let z := (a - s.avg_rating) / s.stddev_rating
      if |z| > 2 then some ⟨"Movie", t, a, z⟩ else none))

/-- Whether the query divides by a zero `stddev_rating` (PostgreSQL then
raises and the handler answers 500). -/
def outlierDivByZero (db : DB) : Bool :=
  (db.bookStats.any (fun s => s.stddev_rating == 0)
      && !(bookTitles db).isEmpty)
    || (db.movieStats.any (fun s => s.stddev_rating == 0)
      && !(movieTitles db).isEmpty)

/-- Rows of the outlier query: the UNION ALL of both CTEs ordered by
z-score descending. -/
def outlierRows (db : DB) : List OutlierRow :=
  (bookOutlierRows db ++ movieOutlierRows db).mergeSort
    (fun a b => decide (b.z_score ≤ a.z_score))

/-- The `BookAndMovieOutliers` handler. -/
def BookAndMovieOutliers (db : DB) (qfail : Bool) : HandlerOut OutlierRow :=
  if qfail || outlierDivByZero db then
    ⟨⟨500, .errObj "Internal Server Error"⟩, true⟩
  else ⟨⟨200, .rowsArr (outlierRows db)⟩, true⟩

/-! ### Requests and their effect on the database

`server.js` wires one route per handler.  Every handler except `signup`
sends the database a single SELECT statement (a read), so processing the
request leaves the state unchanged; `signup` sends a single INSERT into
`login`. -/

/-- One HTTP request to the application, with the inputs its handler
reads. -/
inductive Request where
  | signupReq (username pw : String) (qfail : Bool)
  | loginReq (username password : String)
  | bookDetailsReq (book_id : Int)
  | bookReviewsReq (book_id : Int) (minr maxr : ℚ)
  | bookAdaptationsReq (tconst : String)
  | movieAdaptationsReq (book_id : Int)
  | moviesDetailsReq
  | moviesDetailsWithIdReq (tconst : String)
  | searchMoviesReq
  | searchBooksReq (yearLow yearHigh : String)
  | topMoviesByGenreReq
  | topAuthorsReq
  | correlationReq (invalid : Bool)
  | positiveVsLowReq (invalid : Bool)
  | outliersReq

/-- Whether a request is a signup. -/
def Request.isSignup : Request → Bool
  | .signupReq .. => true
  | _ => false

/-- The database state after processing one request.  Each non-signup
branch returns the state unchanged because its handler's only SQL
statement is a SELECT. -/
def step (r : Request) (db : DB) : DB :=
  match r with
  | .signupReq u p qf => (signup u p db qf).2
  | .loginReq _ _ => db
  | .bookDetailsReq _ => db
  | .bookReviewsReq _ _ _ => db
  | .bookAdaptationsReq _ => db
  | .movieAdaptationsReq _ => db
  | .moviesDetailsReq => db
  | .moviesDetailsWithIdReq _ => db
  | .searchMoviesReq => db
  | .searchBooksReq _ _ => db
  | .topMoviesByGenreReq => db
  | .topAuthorsReq => db
  | .correlationReq _ => db
  | .positiveVsLowReq _ => db
  | .outliersReq => db

/-! ### Concrete sample states used to witness the theorems -/

/-- Sample state: one book (id 7, two reviews rated 4 and 3) adapted by
two movies, `tt1` (runtime 100) and `tt2` (runtime 150). -/
def sampleDB1 : DB :=
  { emptyDB with
    books_data := [⟨7, "B", "d", "i", "p", "2000"⟩],
    books_rating := [⟨7, "r1", "good", 4, 1⟩, ⟨7, "r2", "ok", 3, 1⟩],
    movies_metadata := [⟨"tt1", "M1", "M1", false, 100⟩,
                        ⟨"tt2", "M2", "M2", false, 150⟩],
    books_movies_map := [⟨7, "tt1"⟩, ⟨7, "tt2"⟩] }

/-- The row `get_movie_adaptations_for_book` returns on `sampleDB1` for
book 7: the longer movie `tt2`, with the book's mean review rating 7/2. -/
def sampleAdaptRow : AdaptMovieRow :=
  ⟨"B", "d", "i", "p", "2000", some (7 / 2), "M2", none, false, "tt2"⟩

/-- Sample state for the outlier query: two rated books and two rated
movies, stats rows making exactly one of each an outlier. -/
def sampleDB2 : DB :=
  { emptyDB with
    books_data := [⟨1, "BigB", "d", "i", "p", "2000"⟩,
                   ⟨2, "SmallB", "d", "i", "p", "2000"⟩],
    books_rating := [⟨1, "r", "x", 5, 1⟩, ⟨2, "r", "x", 3, 1⟩],
    movies_metadata := [⟨"tt9", "BigM", "BigM", false, 100⟩,
                        ⟨"tt8", "MidM", "MidM", false, 90⟩],
    movies_ratings := [⟨"tt9", 9, 10⟩, ⟨"tt8", 3, 10⟩],
    bookStats := [⟨3, 1 / 2⟩],
    movieStats := [⟨3, 2⟩] }

/-- The book outlier row of `sampleDB2`: z = (5 - 3) / (1/2) = 4. -/
def sampleOutB : OutlierRow := ⟨"Book", "BigB", 5, 4⟩

/-- The movie outlier row of `sampleDB2`: z = (9 - 3) / 2 = 3. -/
def sampleOutM : OutlierRow := ⟨"Movie", "BigM", 9, 3⟩

/-- Sample state with one registered user. -/
def sampleLoginDB : DB :=
  { emptyDB with login := [⟨"alice", "secret"⟩] }

/-! ## Shared lemmas -/

/-- Membership in `take 1` of a mapped list comes from an element of
`take 1` of the underlying list. -/
theorem mem_take_one_map {γ δ : Type} (f : γ → δ) (s : List γ) (r : δ)
    (hr : r ∈ (s.map f).take 1) : ∃ c ∈ s.take 1, f c = r := by
  cases s with
  | nil => simp at hr
  | cons a t =>
    simp only [List.map_cons, List.take_succ_cons, List.take_zero,
      List.mem_singleton] at hr
    exact ⟨a, by simp, hr.symm⟩

/-- The element surviving `ORDER BY key DESC LIMIT 1` (modelled as
`mergeSort` by descending key followed by `take 1`) belongs to the
original list and its key is maximal there. -/
theorem mergeSort_desc_take_one_max {α : Type} (k : α → Int) (l : List α)
    (c : α)
    (hc : c ∈ (l.mergeSort (fun a b => decide (k b ≤ k a))).take 1) :
    c ∈ l ∧ ∀ x ∈ l, k x ≤ k c := by
  have htrans : ∀ a b cc : α,
      (fun a b : α => decide (k b ≤ k a)) a b = true →
      (fun a b : α => decide (k b ≤ k a)) b cc = true →
      (fun a b : α => decide (k b ≤ k a)) a cc = true := by
    intro a b cc hab hbc
    simp only [decide_eq_true_eq] at hab hbc ⊢
    exact le_trans hbc hab
  have htot : ∀ a b : α,
      ((fun a b : α => decide (k b ≤ k a)) a b
        || (fun a b : α => decide (k b ≤ k a)) b a) = true := by
    intro a b
    simp only [Bool.or_eq_true, decide_eq_true_eq]
    exact le_total (k b) (k a)
  have hsorted :=
    @List.sorted_mergeSort α (fun a b : α => decide (k b ≤ k a)) htrans htot l
  cases hms : l.mergeSort (fun a b : α => decide (k b ≤ k a)) with
  | nil => rw [hms] at hc; simp at hc
  | cons a t =>
    rw [hms] at hc
    simp only [List.take_succ_cons, List.take_zero, List.mem_singleton] at hc
    subst hc
    rw [hms] at hsorted
    constructor
    · have hm : c ∈ l.mergeSort (fun a b : α => decide (k b ≤ k a)) := by
        rw [hms]; exact List.mem_cons_self _ _
      exact List.mem_mergeSort.1 hm
    · intro x hx
      have hxm : x ∈ l.mergeSort (fun a b : α => decide (k b ≤ k a)) :=
        List.mem_mergeSort.2 hx
      rw [hms] at hxm
      rcases List.mem_cons.1 hxm with rfl | hxt
      · exact le_refl _
      · have hp := (List.pairwise_cons.1 hsorted).1 x hxt
        simpa using hp

/-- Every candidate row of `get_book_adaptations_for_movie` carries as
`book_rating` the `AverageBookRating` of its own book. -/
theorem bookAdaptCandidates_fields {db : DB} {t : String}
    {p : Int × AdaptBookRow} (hp : p ∈ bookAdaptCandidates db t) :
    p.2.book_rating = avgBookRating db p.2.book_id := by
  simp only [bookAdaptCandidates, List.mem_flatMap, List.mem_filter,
    List.mem_map] at hp
  obtain ⟨m, hm, bm, hbm, b, hb, mr, hmr, hpeq⟩ := hp
  subst hpeq
  rfl

/-- Every candidate row of `get_movie_adaptations_for_book` carries as
`book_average_rating` the `AverageBookRating` of the queried book. -/
theorem movieAdaptCandidates_fields {db : DB} {bid : Int}
    {p : Int × AdaptMovieRow} (hp : p ∈ movieAdaptCandidates db bid) :
    p.2.book_average_rating = avgBookRating db bid := by
  simp only [movieAdaptCandidates, List.mem_flatMap, List.mem_filter,
    List.mem_map] at hp
  obtain ⟨b, ⟨hb, hbid⟩, bm, hbm, m, hm, mr, hmr, hpeq⟩ := hp
  subst hpeq
  have hbb : b.book_id = bid := by simpa using hbid
  simp only [hbb]

/-! ## C1: canonical adaptation row -/

/-- C1: each adaptation lookup returns at most one row (and a row exists
whenever the joined mapping has candidates); the returned row is one of
the mapping's candidate rows and its movie's runtime is maximal among
all candidates; and its book-rating field equals the arithmetic mean of
that book's individual review ratings in `books_rating` whenever the
book has any review. -/
theorem adaptation_lookup_canonical (db : DB) (tconst : String)
    (book_id : Int) :
    (bookAdaptRows db tconst).length ≤ 1 ∧
    (movieAdaptRows db book_id).length ≤ 1 ∧
    (bookAdaptCandidates db tconst ≠ [] → bookAdaptRows db tconst ≠ []) ∧
    (movieAdaptCandidates db book_id ≠ [] → movieAdaptRows db book_id ≠ []) ∧
    (∀ r ∈ bookAdaptRows db tconst,
      (∃ c ∈ bookAdaptCandidates db tconst, c.2 = r ∧
        ∀ x ∈ bookAdaptCandidates db tconst, x.1 ≤ c.1) ∧
      (ratingsOf db r.book_id ≠ [] →
        r.book_rating = some (listAvg (ratingsOf db r.book_id)))) ∧
    (∀ r ∈ movieAdaptRows db book_id,
      (∃ c ∈ movieAdaptCandidates db book_id, c.2 = r ∧
        ∀ x ∈ movieAdaptCandidates db book_id, x.1 ≤ c.1) ∧
      (ratingsOf db book_id ≠ [] →
        r.book_average_rating = some (listAvg (ratingsOf db book_id)))) := by
  refine ⟨?_, ?_, ?_, ?_, ?_, ?_⟩
  · exact le_trans (List.length_take_le 1 _) le_rfl
  · exact le_trans (List.length_take_le 1 _) le_rfl
  · intro hne
    have hlen : ((bookAdaptCandidates db tconst).mergeSort
        (fun a b => decide (b.1 ≤ a.1))).length =
        (bookAdaptCandidates db tconst).length :=
      (List.mergeSort_perm _ _).length_eq
    simp only [bookAdaptRows, ne_eq, ← List.length_pos] at hne ⊢
    rw [List.length_take, List.length_map, hlen]
    omega
  · intro hne
    have hlen : ((movieAdaptCandidates db book_id).mergeSort
        (fun a b => decide (b.1 ≤ a.1))).length =
        (movieAdaptCandidates db book_id).length :=
      (List.mergeSort_perm _ _).length_eq
    simp only [movieAdaptRows, ne_eq, ← List.length_pos] at hne ⊢
    rw [List.length_take, List.length_map, hlen]
    omega
  · intro r hr
    obtain ⟨c, hc1, hc2⟩ := mem_take_one_map _ _ r hr
    obtain ⟨hcl, hmax⟩ := mergeSort_desc_take_one_max Prod.fst _ c hc1
    refine ⟨⟨c, hcl, hc2, hmax⟩, ?_⟩
    intro hne
    have hfield := bookAdaptCandidates_fields hcl
    rw [hc2] at hfield
    rw [hfield, avgBookRating, if_neg hne]
  · intro r hr
    obtain ⟨c, hc1, hc2⟩ := mem_take_one_map _ _ r hr
    obtain ⟨hcl, hmax⟩ := mergeSort_desc_take_one_max Prod.fst _ c hc1
    refine ⟨⟨c, hcl, hc2, hmax⟩, ?_⟩
    intro hne
    have hfield := movieAdaptCandidates_fields hcl
    rw [hc2] at hfield
    rw [hfield, avgBookRating, if_neg hne]

/-- Witness for C1: on `sampleDB1`, book 7 is mapped to movies of
runtime 100 and 150; the handler returns the runtime-150 movie and the
book's mean review rating (4 + 3) / 2 = 7/2. -/
theorem adaptation_lookup_canonical_witness :
    movieAdaptRows sampleDB1 7 = [sampleAdaptRow] ∧
    sampleAdaptRow.book_average_rating =
      some (listAvg (ratingsOf sampleDB1 7)) ∧
    listAvg (ratingsOf sampleDB1 7) = 7 / 2 := by
  have hrows : movieAdaptRows sampleDB1 7 = [sampleAdaptRow] := by
    with_unfolding_all decide
  refine ⟨hrows, ?_, by with_unfolding_all decide⟩
  exact ((adaptation_lookup_canonical sampleDB1 "tt1" 7).2.2.2.2.2
      sampleAdaptRow (by rw [hrows]; exact List.mem_singleton_self _)).2
      (by with_unfolding_all decide)

/-! ## Lemmas about the outlier query -/

/-- A `mergeSort` by descending rational key is pairwise descending. -/
theorem mergeSort_desc_sorted {α : Type} (k : α → ℚ) (l : List α) :
    (l.mergeSort (fun a b => decide (k b ≤ k a))).Pairwise
      (fun a b => k b ≤ k a) := by
  have htrans : ∀ a b cc : α,
      (fun a b : α => decide (k b ≤ k a)) a b = true →
      (fun a b : α => decide (k b ≤ k a)) b cc = true →
      (fun a b : α => decide (k b ≤ k a)) a cc = true := by
    intro a b cc hab hbc
    simp only [decide_eq_true_eq] at hab hbc ⊢
    exact le_trans hbc hab
  have htot : ∀ a b : α,
      ((fun a b : α => decide (k b ≤ k a)) a b
        || (fun a b : α => decide (k b ≤ k a)) b a) = true := by
    intro a b
    simp only [Bool.or_eq_true, decide_eq_true_eq]
    exact le_total (k b) (k a)
  have hs :=
    @List.sorted_mergeSort α (fun a b : α => decide (k b ≤ k a)) htrans htot l
  exact hs.imp (fun h => by simpa using h)

/-- Shape of a member of the `BookOutliers` CTE rows. -/
theorem mem_bookOutlierRows {db : DB} {r : OutlierRow}
    (hr : r ∈ bookOutlierRows db) :
    ∃ s ∈ db.bookStats, ∃ t ∈ bookTitles db,
      r = ⟨"Book", t, titleAvg (bookTitleRatings db) t,
           (titleAvg (bookTitleRatings db) t - s.avg_rating) /
             s.stddev_rating⟩ ∧
      |(titleAvg (bookTitleRatings db) t - s.avg_rating) /
          s.stddev_rating| > 2 := by
  simp only [bookOutlierRows, List.mem_flatMap, List.mem_filterMap] at hr
  obtain ⟨s, hs, t, ht, hq⟩ := hr
  split at hq
  · next hz =>
    refine ⟨s, hs, t, ht, ?_, hz⟩
    injection hq with h
    exact h.symm
  · cases hq

/-- Shape of a member of the `MovieOutliers` CTE rows. -/
theorem mem_movieOutlierRows {db : DB} {r : OutlierRow}
    (hr : r ∈ movieOutlierRows db) :
    ∃ s ∈ db.movieStats, ∃ t ∈ movieTitles db,
      r = ⟨"Movie", t, titleAvg (movieTitleRatings db) t,
           (titleAvg (movieTitleRatings db) t - s.avg_rating) /
             s.stddev_rating⟩ ∧
      |(titleAvg (movieTitleRatings db) t - s.avg_rating) /
          s.stddev_rating| > 2 := by
  simp only [movieOutlierRows, List.mem_flatMap, List.mem_filterMap] at hr
  obtain ⟨s, hs, t, ht, hq⟩ := hr
  split at hq
  · next hz =>
    refine ⟨s, hs, t, ht, ?_, hz⟩
    injection hq with h
    exact h.symm
  · cases hq

/-- The rows the outlier handler sends are either empty (error path) or
exactly the rows of the outlier query. -/
theorem outliers_rows_cases (db : DB) (qfail : Bool) :
    (BookAndMovieOutliers db qfail).rows = [] ∨
    (BookAndMovieOutliers db qfail).rows = outlierRows db := by
  unfold BookAndMovieOutliers
  split
  · left; rfl
  · right; rfl

/-! ## C2: outlier entries have z-score magnitude above 2 -/

/-- C2: with the `BookStats` / `MovieStats` views each holding one row of
global mean and standard deviation, every entry the outlier endpoint
returns has z-score magnitude above 2, the z-score being the entry's
average rating minus the global mean divided by the global standard
deviation of its kind; and no title whose z-score magnitude is at most 2
appears among the returned entries of that kind. -/
theorem outlier_zscore (db : DB) (bs ms : StatsRow) (qfail : Bool)
    (hb : db.bookStats = [bs]) (hm : db.movieStats = [ms]) :
    (∀ r ∈ (BookAndMovieOutliers db qfail).rows,
      |r.z_score| > 2 ∧
      ((r.media_type = "Book" ∧
          r.avg_rating = titleAvg (bookTitleRatings db) r.media_title ∧
          r.z_score = (r.avg_rating - bs.avg_rating) / bs.stddev_rating) ∨
       (r.media_type = "Movie" ∧
          r.avg_rating = titleAvg (movieTitleRatings db) r.media_title ∧
          r.z_score = (r.avg_rating - ms.avg_rating) / ms.stddev_rating))) ∧
    (∀ t ∈ bookTitles db,
      |(titleAvg (bookTitleRatings db) t - bs.avg_rating) /
          bs.stddev_rating| ≤ 2 →
      ∀ r ∈ (BookAndMovieOutliers db qfail).rows,
        ¬(r.media_type = "Book" ∧ r.media_title = t)) ∧
    (∀ t ∈ movieTitles db,
      |(titleAvg (movieTitleRatings db) t - ms.avg_rating) /
          ms.stddev_rating| ≤ 2 →
      ∀ r ∈ (BookAndMovieOutliers db qfail).rows,
        ¬(r.media_type = "Movie" ∧ r.media_title = t)) := by
  have hcases := outliers_rows_cases db qfail
  have hmem : ∀ r ∈ (BookAndMovieOutliers db qfail).rows,
      r ∈ bookOutlierRows db ∨ r ∈ movieOutlierRows db := by
    intro r hr
    rcases hcases with h | h
    · rw [h] at hr; cases hr
    · rw [h] at hr
      unfold outlierRows at hr
      have := List.mem_mergeSort.1 hr
      exact List.mem_append.1 this
  refine ⟨?_, ?_, ?_⟩
  · intro r hr
    rcases hmem r hr with h | h
    · obtain ⟨s, hs, t, ht, heq, hz⟩ := mem_bookOutlierRows h
      rw [hb] at hs
      rcases List.mem_singleton.1 hs with rfl
      subst heq
      exact ⟨hz, Or.inl ⟨rfl, rfl, rfl⟩⟩
    · obtain ⟨s, hs, t, ht, heq, hz⟩ := mem_movieOutlierRows h
      rw [hm] at hs
      rcases List.mem_singleton.1 hs with rfl
      subst heq
      exact ⟨hz, Or.inr ⟨rfl, rfl, rfl⟩⟩
  · intro t ht hle r hr ⟨hbk, htt⟩
    rcases hmem r hr with h | h
    · obtain ⟨s, hs, t', ht', heq, hz⟩ := mem_bookOutlierRows h
      rw [hb] at hs
      rcases List.mem_singleton.1 hs with rfl
      subst heq
      simp only at htt
      subst htt
      exact absurd hz (not_lt.2 hle)
    · obtain ⟨s, hs, t', ht', heq, hz⟩ := mem_movieOutlierRows h
      subst heq
      have hbk2 : ("Movie" : String) = "Book" := hbk
      exact absurd hbk2 (by decide)
  · intro t ht hle r hr ⟨hmv, htt⟩
    rcases hmem r hr with h | h
    · obtain ⟨s, hs, t', ht', heq, hz⟩ := mem_bookOutlierRows h
      subst heq
      have hmv2 : ("Book" : String) = "Movie" := hmv
      exact absurd hmv2 (by decide)
    · obtain ⟨s, hs, t', ht', heq, hz⟩ := mem_movieOutlierRows h
      rw [hm] at hs
      rcases List.mem_singleton.1 hs with rfl
      subst heq
      simp only at htt
      subst htt
      exact absurd hz (not_lt.2 hle)

/-- Witness for C2 at `sampleDB2`: the returned book entry `BigB` has
z-score 4, of magnitude above 2. -/
theorem outlier_zscore_witness :
    sampleOutB ∈ (BookAndMovieOutliers sampleDB2 false).rows ∧
    |sampleOutB.z_score| > 2 := by
  have hmem : sampleOutB ∈ (BookAndMovieOutliers sampleDB2 false).rows := by
    with_unfolding_all decide
  exact ⟨hmem,
    ((outlier_zscore sampleDB2 ⟨3, 1 / 2⟩ ⟨3, 2⟩ false rfl rfl).1
      sampleOutB hmem).1⟩

/-! ## C3: the outlier list is labeled, contrary to the claim -/

/-- Counterexample for C3: on `sampleDB2` the endpoint returns one book
entry and one movie entry, and the `media_type` field distinguishes
them, so the list is not unlabeled. -/
theorem outliers_unlabeled_counterexample :
    ((BookAndMovieOutliers sampleDB2 false).rows.map
        OutlierRow.media_type) = ["Book", "Movie"] ∧
    ("Book" : String) ≠ "Movie" := by
  with_unfolding_all decide

/-- C3 as amended: the outlier endpoint returns the union of book and
movie outliers as a single list sorted by z-score descending, in which
each entry carries a `media_type` field reading `Book` or `Movie`
according to its origin. -/
theorem outliers_union_labeled_sorted (db : DB) (qfail : Bool) :
    (outlierRows db).Perm (bookOutlierRows db ++ movieOutlierRows db) ∧
    (outlierRows db).Pairwise (fun a b => b.z_score ≤ a.z_score) ∧
    (∀ r ∈ outlierRows db,
      (r.media_type = "Book" ∧ r ∈ bookOutlierRows db) ∨
      (r.media_type = "Movie" ∧ r ∈ movieOutlierRows db)) ∧
    (qfail = false → outlierDivByZero db = false →
      BookAndMovieOutliers db qfail =
        ⟨⟨200, .rowsArr (outlierRows db)⟩, true⟩) := by
  refine ⟨List.mergeSort_perm _ _, ?_, ?_, ?_⟩
  · exact mergeSort_desc_sorted (fun r : OutlierRow => r.z_score) _
  · intro r hr
    unfold outlierRows at hr
    have hr' := List.mem_append.1 (List.mem_mergeSort.1 hr)
    rcases hr' with h | h
    · obtain ⟨s, hs, t, ht, heq, hz⟩ := mem_bookOutlierRows h
      subst heq
      exact Or.inl ⟨rfl, h⟩
    · obtain ⟨s, hs, t, ht, heq, hz⟩ := mem_movieOutlierRows h
      subst heq
      exact Or.inr ⟨rfl, h⟩
  · intro hq hdz
    subst hq
    unfold BookAndMovieOutliers
    rw [hdz]
    rfl

/-- Witness for C3's amended theorem at `sampleDB2`. -/
theorem outliers_union_labeled_sorted_witness :
    BookAndMovieOutliers sampleDB2 false =
      ⟨⟨200, .rowsArr (outlierRows sampleDB2)⟩, true⟩ ∧
    ((sampleOutB.media_type = "Book" ∧
        sampleOutB ∈ bookOutlierRows sampleDB2) ∨
     (sampleOutB.media_type = "Movie" ∧
        sampleOutB ∈ movieOutlierRows sampleDB2)) := by
  have h := outliers_union_labeled_sorted sampleDB2 false
  exact ⟨h.2.2.2 rfl (by with_unfolding_all decide),
         h.2.2.1 sampleOutB (by with_unfolding_all decide)⟩

/-! ## C4: the year-range guard compares strings, not numbers -/

/-- Counterexample for C4: with yearLow = "9" and yearHigh = "10" the
range is numerically valid (9 ≤ 10), yet the guard rejects the request
with 404 and never runs the query, because JavaScript compares the two
query-parameter strings lexicographically and "10" < "9". -/
theorem search_books_year_guard_counterexample :
    strNatVal "9" ≤ strNatVal "10" ∧
    search_books "9" "10" (.ok []) =
      ⟨⟨404, .errObj "Invalid year range"⟩, false⟩ := by
  with_unfolding_all decide

/-- C4 as amended: `search_books` rejects with 404 and body
`error: Invalid year range`, without running the SQL query, exactly when
`yearHigh` is lexicographically smaller than `yearLow` as strings
(JavaScript's `<` on the raw query parameters); otherwise the guard does
not reject and the query runs. -/
theorem search_books_year_guard (yearLow yearHigh : String)
    (q : QueryOutcome BookSearchRow) :
    (jsStrLt yearHigh yearLow = true →
      search_books yearLow yearHigh q =
        ⟨⟨404, .errObj "Invalid year range"⟩, false⟩) ∧
    (jsStrLt yearHigh yearLow = false →
      (search_books yearLow yearHigh q).ranQuery = true ∧
      (search_books yearLow yearHigh q).resp.status ≠ 404) := by
  constructor
  · intro h
    simp [search_books, h]
  · intro h
    cases q with
    | fail => simp [search_books, h]
    | ok rows => simp [search_books, h]

/-- Witness for C4's amended theorem: a lexicographically inverted range
is rejected without a query; an ordered one is not. -/
theorem search_books_year_guard_witness :
    search_books "2025" "2000" (.ok []) =
      ⟨⟨404, .errObj "Invalid year range"⟩, false⟩ ∧
    (search_books "1990" "2020" (.ok [])).ranQuery = true := by
  exact ⟨(search_books_year_guard "2025" "2000" (.ok [])).1
           (by with_unfolding_all decide),
         ((search_books_year_guard "1990" "2020" (.ok [])).2
           (by with_unfolding_all decide)).1⟩

/-! ## C5: the empty-result 404 of `get_book_details` is dead code -/

/-- C5 (code bug): a negative book id is rejected with 404 and no query,
as claimed; but for a book id absent from the database the query
succeeds with zero rows and the handler answers 200 with an empty array,
not the claimed 404, because the source checks `data.length === 0` on
the pg result object (which has no `length` field) instead of
`data.rows.length === 0`. -/
theorem get_book_details_empty_result_bug :
    get_book_details (-1) emptyDB false =
      ⟨⟨404, .msgObj "No books found"⟩, false⟩ ∧
    bookDetailsRows emptyDB 99999 = [] ∧
    get_book_details 99999 emptyDB false = ⟨⟨200, .rowsArr []⟩, true⟩ := by
  with_unfolding_all decide

/-! ## C6: login compares the stored password by string equality -/

/-- Filtering a username-unique login table for a present username
yields exactly that user's row. -/
theorem login_filter_unique {l : List LoginRow} {row : LoginRow}
    {u : String} (hp : l.Pairwise (fun a b => a.username ≠ b.username))
    (hmem : row ∈ l) (hu : row.username = u) :
    l.filter (fun r => r.username == u) = [row] := by
  induction l with
  | nil => cases hmem
  | cons a t ih =>
    rcases List.mem_cons.1 hmem with rfl | hmt
    · have ht : t.filter (fun r => r.username == u) = [] := by
        rw [List.filter_eq_nil_iff]
        intro b hb
        have hne := (List.pairwise_cons.1 hp).1 b hb
        rw [hu] at hne
        simp only [beq_eq_false_iff_ne, ne_eq, Bool.not_eq_true]
        exact fun hc => hne hc.symm
      rw [List.filter_cons_of_pos (by simp [hu]), ht]
    · have ha : ¬(a.username == u) = true := by
        have hne := (List.pairwise_cons.1 hp).1 row hmt
        rw [hu] at hne
        simpa using hne
      rw [List.filter_cons, if_neg ha]
      exact ih (List.pairwise_cons.1 hp).2 hmt

/-- C6: on a username-unique login table, a login with the stored
password of an existing user answers 200 `Login successful`; an unknown
username or a differing password answers 401
`Incorrect username/password! Try again.`. -/
theorem login_spec (db : DB) (u p : String)
    (huniq : db.login.Pairwise (fun a b => a.username ≠ b.username)) :
    (∀ row ∈ db.login, row.username = u → row.password = p →
      login u p db false = ⟨⟨200, .msgObj "Login successful"⟩, true⟩) ∧
    ((∀ row ∈ db.login, row.username ≠ u) →
      login u p db false =
        ⟨⟨401, .msgObj "Incorrect username/password! Try again."⟩, true⟩) ∧
    (∀ row ∈ db.login, row.username = u → row.password ≠ p →
      login u p db false =
        ⟨⟨401, .msgObj "Incorrect username/password! Try again."⟩, true⟩) := by
  refine ⟨?_, ?_, ?_⟩
  · intro row hrow hu hpw
    have hf := login_filter_unique huniq hrow hu
    simp [login, hf, hpw]
  · intro hall
    have hf : db.login.filter (fun r => r.username == u) = [] := by
      rw [List.filter_eq_nil_iff]
      intro r hr
      simpa using hall r hr
    simp [login, hf]
  · intro row hrow hu hpw
    have hf := login_filter_unique huniq hrow hu
    have hpw2 : (p == row.password) = false := by
      simp only [beq_eq_false_iff_ne, ne_eq]
      exact fun hc => hpw hc.symm
    simp [login, hf, hpw2]

/-- Witness for C6 on `sampleLoginDB` (user alice / secret). -/
theorem login_spec_witness :
    login "alice" "secret" sampleLoginDB false =
      ⟨⟨200, .msgObj "Login successful"⟩, true⟩ ∧
    login "bob" "x" sampleLoginDB false =
      ⟨⟨401, .msgObj "Incorrect username/password! Try again."⟩, true⟩ ∧
    login "alice" "wrong" sampleLoginDB false =
      ⟨⟨401, .msgObj "Incorrect username/password! Try again."⟩, true⟩ := by
  have hu : sampleLoginDB.login.Pairwise
      (fun a b => a.username ≠ b.username) := by
    simp [sampleLoginDB, emptyDB]
  refine ⟨?_, ?_, ?_⟩
  · exact (login_spec sampleLoginDB "alice" "secret" hu).1
      ⟨"alice", "secret"⟩ (by with_unfolding_all decide) rfl rfl
  · exact (login_spec sampleLoginDB "bob" "x" hu).2.1
      (by intro row hrow
          simp only [sampleLoginDB, emptyDB, List.mem_singleton] at hrow
          subst hrow
          decide)
  · exact (login_spec sampleLoginDB "alice" "wrong" hu).2.2
      ⟨"alice", "secret"⟩ (by with_unfolding_all decide) rfl
      (by decide)

/-! ## C7: adaptation handlers on failure and on empty results -/

/-- C7: for both adaptation handlers, once the guard is passed, a failed
SQL query yields status 500 with body `error: Internal Server Error`,
and a successful query with zero rows yields status 200 with an empty
JSON array. -/
theorem adaptation_error_and_empty (db : DB) (tconst : String)
    (book_id : Int) (ht : tconst ≠ "") (hb : -1 ≤ book_id) :
    (get_book_adaptations_for_movie tconst db true).resp =
      ⟨500, .errObj "Internal Server Error"⟩ ∧
    (get_movie_adaptations_for_book book_id db true).resp =
      ⟨500, .errObj "Internal Server Error"⟩ ∧
    (bookAdaptRows db tconst = [] →
      (get_book_adaptations_for_movie tconst db false).resp =
        ⟨200, .rowsArr []⟩) ∧
    (movieAdaptRows db book_id = [] →
      (get_movie_adaptations_for_book book_id db false).resp =
        ⟨200, .rowsArr []⟩) := by
  have hlen : tconst.length ≠ 0 := by
    intro h0
    apply ht
    cases tconst with
    | mk data =>
      cases data with
      | nil => rfl
      | cons c cs => simp [String.length] at h0
  have hb2 : ¬(book_id < -1) := not_lt.2 hb
  refine ⟨?_, ?_, ?_, ?_⟩
  · simp [get_book_adaptations_for_movie, hlen]
  · simp [get_movie_adaptations_for_book, hb2]
  · intro hrows
    simp [get_book_adaptations_for_movie, hlen, hrows]
  · intro hrows
    simp [get_movie_adaptations_for_book, hb2, hrows]

/-- Witness for C7 on the empty database: movie `tt0` has no mapped
book, and the handler answers 200 with an empty array; a failing query
answers 500. -/
theorem adaptation_error_and_empty_witness :
    bookAdaptRows emptyDB "tt0" = [] ∧
    (get_book_adaptations_for_movie "tt0" emptyDB false).resp =
      ⟨200, .rowsArr []⟩ ∧
    (get_movie_adaptations_for_book 0 emptyDB true).resp =
      ⟨500, .errObj "Internal Server Error"⟩ := by
  have h := adaptation_error_and_empty emptyDB "tt0" 0
    (by decide) (by decide)
  exact ⟨by with_unfolding_all decide,
         h.2.2.1 (by with_unfolding_all decide), h.2.1⟩

/-! ## C10: the book-to-movie guard admits -1 -/

/-- C10: `get_movie_adaptations_for_book` refuses to run its query (with
a 500) exactly when the book id is strictly less than -1, so -1 itself
reaches the SQL query, whereas `get_book_details` rejects every negative
id with a 404 and no query. -/
theorem movie_adaptations_guard (db : DB) (book_id : Int) (qfail : Bool) :
    ((get_movie_adaptations_for_book book_id db qfail).ranQuery = false
      ↔ book_id < -1) ∧
    (book_id < -1 →
      get_movie_adaptations_for_book book_id db qfail =
        ⟨⟨500, .errObj "Internal Server Error"⟩, false⟩) ∧
    (get_movie_adaptations_for_book (-1) db qfail).ranQuery = true ∧
    (book_id < 0 →
      get_book_details book_id db qfail =
        ⟨⟨404, .msgObj "No books found"⟩, false⟩) := by
  refine ⟨?_, ?_, ?_, ?_⟩
  · by_cases h : book_id < -1
    · simp [get_movie_adaptations_for_book, h]
    · cases qfail <;> simp [get_movie_adaptations_for_book, h]
  · intro h
    simp [get_movie_adaptations_for_book, h]
  · have h : ¬((-1 : Int) < -1) := by decide
    cases qfail <;> simp [get_movie_adaptations_for_book, h]
  · intro h
    simp [get_book_details, h]

/-- Witness for C10: -2 is refused without a query, -1 is not, and
`get_book_details` refuses -1 with 404. -/
theorem movie_adaptations_guard_witness :
    get_movie_adaptations_for_book (-2) emptyDB false =
      ⟨⟨500, .errObj "Internal Server Error"⟩, false⟩ ∧
    (get_movie_adaptations_for_book (-1) emptyDB false).ranQuery = true ∧
    get_book_details (-1) emptyDB false =
      ⟨⟨404, .msgObj "No books found"⟩, false⟩ := by
  exact ⟨(movie_adaptations_guard emptyDB (-2) false).2.1 (by decide),
         (movie_adaptations_guard emptyDB (-1) false).2.2.1,
         (movie_adaptations_guard emptyDB (-1) false).2.2.2 (by decide)⟩

/-! ## C8: two handlers answer with bare JSON strings -/

/-- Counterexample for C8: `get_book_reviews` with book id -1 answers
404 with the bare JSON string `Internal Server Error`, not an array or
a message/error object. -/
theorem bare_string_response_counterexample :
    (get_book_reviews (-1) 0 5 emptyDB false).resp =
      ⟨404, .strBody "Internal Server Error"⟩ ∧
    Body.isStr (get_book_reviews (-1) 0 5 emptyDB false).resp.body
      = true := by
  with_unfolding_all decide

/-- C8 as amended: every endpoint answers with a JSON array of rows or a
message/error object, except `get_book_reviews`, whose guard-rejection
(404) and query-failure (500) responses are bare JSON strings, and
`PositiveReviewsforBooksvsLowMovierating`, whose query-failure response
is a bare JSON string. -/
theorem response_shapes :
    (∀ u p db qf, Body.isStr (login u p db qf).resp.body = false) ∧
    (∀ u p db qf, Body.isStr (signup u p db qf).1.resp.body = false) ∧
    (∀ yl yh q, Body.isStr (search_books yl yh q).resp.body = false) ∧
    (∀ q, Body.isStr (moviesDetails q).resp.body = false) ∧
    (∀ t q, Body.isStr (moviesDetailsWithId t q).resp.body = false) ∧
    (∀ q, Body.isStr (searchMovies q).resp.body = false) ∧
    (∀ b db qf, Body.isStr (get_book_details b db qf).resp.body = false) ∧
    (∀ q, Body.isStr (book_analytics_top_authors q).resp.body = false) ∧
    (∀ t db qf,
      Body.isStr (get_book_adaptations_for_movie t db qf).resp.body
        = false) ∧
    (∀ b db qf,
      Body.isStr (get_movie_adaptations_for_book b db qf).resp.body
        = false) ∧
    (∀ q, Body.isStr (topMoviesByGenre q).resp.body = false) ∧
    (∀ i q,
      Body.isStr (correlationReviewsMovieRatings i q).resp.body
        = false) ∧
    (∀ db qf, Body.isStr (BookAndMovieOutliers db qf).resp.body = false) ∧
    (∀ i q,
      Body.isStr (PositiveReviewsforBooksvsLowMovierating i q).resp.body
        = (!i && q.isFail)) ∧
    (∀ b mn mx db qf,
      Body.isStr (get_book_reviews b mn mx db qf).resp.body
        = (decide (b < 0) || qf)) := by
  refine ⟨?_, ?_, ?_, ?_, ?_, ?_, ?_, ?_, ?_, ?_, ?_, ?_, ?_, ?_, ?_⟩
  · intro u p db qf
    cases qf
    · cases hf : db.login.filter (fun r => r.username == u) with
      | nil => simp [login, hf, Body.isStr]
      | cons r t =>
        by_cases hp2 : (p == r.password) = true <;>
          simp [login, hf, hp2, Body.isStr]
    · simp [login, Body.isStr]
  · intro u p db qf
    by_cases h : (qf || usernameTaken db u) = true <;>
      simp [signup, h, Body.isStr]
  · intro yl yh q
    by_cases h : jsStrLt yh yl = true <;> cases q <;>
      simp [search_books, h, Body.isStr]
  · intro q
    cases q <;> simp [moviesDetails, Body.isStr]
  · intro t q
    by_cases h : (t.length == 0) = true <;> cases q <;>
      simp [moviesDetailsWithId, h, Body.isStr]
  · intro q
    cases q <;> simp [searchMovies, Body.isStr]
  · intro b db qf
    by_cases h : b < 0 <;> cases qf <;>
      simp [get_book_details, h, dataLengthIsZero, Body.isStr]
  · intro q
    cases q <;> simp [book_analytics_top_authors, Body.isStr]
  · intro t db qf
    by_cases h : (t.length == 0) = true <;> cases qf <;>
      simp [get_book_adaptations_for_movie, h, Body.isStr]
  · intro b db qf
    by_cases h : b < -1 <;> cases qf <;>
      simp [get_movie_adaptations_for_book, h, Body.isStr]
  · intro q
    cases q <;> simp [topMoviesByGenre, Body.isStr]
  · intro i q
    cases i <;> cases q <;>
      simp [correlationReviewsMovieRatings, Body.isStr]
  · intro db qf
    by_cases h : (qf || outlierDivByZero db) = true <;>
      simp [BookAndMovieOutliers, h, Body.isStr]
  · intro i q
    cases i <;> cases q <;>
      simp [PositiveReviewsforBooksvsLowMovierating, QueryOutcome.isFail,
        Body.isStr]
  · intro b mn mx db qf
    by_cases h : b < 0
    · simp [get_book_reviews, h, Body.isStr]
    · cases qf <;>
        simp [get_book_reviews, h, dataLengthIsZero, Body.isStr]

/-! ## C9: only signup writes to the database -/

/-- C9: every handler except `signup` issues a single SELECT, so any
sequence of non-signup requests leaves the database state unchanged;
`signup` performs exactly one INSERT into the `login` table (a no-op
when it fails on the unique constraint or a query error). -/
theorem readonly_except_signup (reqs : List Request) (db : DB)
    (u p : String) (qf : Bool)
    (hns : ∀ r ∈ reqs, r.isSignup = false) :
    (∀ r : Request, r.isSignup = false → step r db = db) ∧
    reqs.foldl (fun d r => step r d) db = db ∧
    step (.signupReq u p qf) db =
      (if qf || usernameTaken db u then db
       else { db with login := db.login ++ [⟨u, p⟩] }) := by
  have hstep : ∀ (r : Request) (d : DB), r.isSignup = false →
      step r d = d := by
    intro r d hr
    cases r
    case signupReq => exact absurd hr (by simp [Request.isSignup])
    all_goals rfl
  refine ⟨fun r hr => hstep r db hr, ?_, ?_⟩
  · have hfold : ∀ (l : List Request) (d : DB),
        (∀ r ∈ l, r.isSignup = false) →
        l.foldl (fun dd r => step r dd) d = d := by
      intro l
      induction l with
      | nil => intro d _; rfl
      | cons a t ih =>
        intro d hl
        rw [List.foldl_cons, hstep a d (hl a (List.mem_cons_self _ _))]
        exact ih d (fun r hr => hl r (List.mem_cons_of_mem _ hr))
    exact hfold reqs db hns
  · simp only [step]
    unfold signup
    by_cases h : (qf || usernameTaken db u) = true <;> simp [h]

/-- Witness for C9: a sequence of three read requests leaves
`sampleLoginDB` unchanged, and a fresh signup appends one login row. -/
theorem readonly_except_signup_witness :
    [Request.loginReq "a" "b", Request.outliersReq,
        Request.bookDetailsReq 3].foldl
      (fun d r => step r d) sampleLoginDB = sampleLoginDB ∧
    step (.signupReq "bob" "pw" false) sampleLoginDB =
      { sampleLoginDB with
          login := sampleLoginDB.login ++ [⟨"bob", "pw"⟩] } := by
  have h := readonly_except_signup
    [Request.loginReq "a" "b", Request.outliersReq,
     Request.bookDetailsReq 3]
    sampleLoginDB "bob" "pw" false
    (by intro r hr
        simp only [List.mem_cons, List.not_mem_nil, or_false] at hr
        rcases hr with rfl | rfl | rfl <;> rfl)
  refine ⟨h.2.1, ?_⟩
  rw [h.2.2]
  with_unfolding_all decide

end BookFlix
